import Mathlib

set_option maxRecDepth 40000

set_option linter.unusedVariables false

/-!
Shallow embedding of the pyrobotdhs gateway (pyrobotdhs/dhs.py): the state
publishers, the port/location codec, the operation callback, and the
robot_config command dispatch.  Python exceptions are modelled with
`Except String`; the error payload names the Python exception class.
Python dicts whose key sets vary at runtime (robot.sample_locations) are
modelled as association lists with lookup returning a KeyError on a missing
key; dicts whose keys are fixed by the driver (holder_types, port_states,
port_distances, height_errors, keyed by the three positions) are modelled as
total functions from an enumerated Position type.
-/

/-- The three holder positions ('left', 'middle', 'right'). -/
inductive Position
| left
| middle
| right
deriving DecidableEq, Repr

/-- Holder type codes from the external aspyrobotmx codes library. -/
inductive HolderType
| unknown
| normal
| calibration
| superpuck
| error
deriving DecidableEq, Repr

/-- Port state codes from the external aspyrobotmx codes library. -/
inductive PortState
| unknown
| empty
| full
| error
deriving DecidableEq, Repr

/-- First letter of the position name, `position[0]` in the source. -/
def posLetter : Position → String
| Position.left => "l"
| Position.middle => "m"
| Position.right => "r"

/-- Full position name string. -/
def posName : Position → String
| Position.left => "left"
| Position.middle => "middle"
| Position.right => "right"

/-- HOLDER_TYPE_MAP from dhs.py.  HolderType.error is deliberately absent
from the source map (commented out there), so looking it up raises KeyError. -/
def holderTypeMap : HolderType → Except String String
| HolderType.unknown => Except.ok "u"
| HolderType.normal => Except.ok "1"
| HolderType.calibration => Except.ok "2"
| HolderType.superpuck => Except.ok "3"
| HolderType.error => Except.error "KeyError"

/-- PORT_STATE_MAP from dhs.py (total on the four PortState members). -/
def portStateMap : PortState → String
| PortState.unknown => "u"
| PortState.empty => "0"
| PortState.full => "1"
| PortState.error => "b"

/-- RobotDHS.port_tuple_to_str.  The Python `port_tuple` argument is falsy
(None or an empty tuple) or a `(position, port_index)` pair; both falsy forms
are modelled as `none`.  `ord('A') = 65`. -/
def port_tuple_to_str (holderTypes : Position → HolderType) :
    Option (Position × Nat) → String
| none => "invalid"
| some (position, port) =>
  match holderTypes position with
  | HolderType.normal =>
    posLetter position ++ " " ++ toString (port % 8 + 1) ++ " " ++
      Char.toString (Char.ofNat (port / 8 + 65))
  | HolderType.calibration =>
    posLetter position ++ " " ++ toString (port % 8 + 1) ++ " " ++
      Char.toString (Char.ofNat (port / 8 + 65))
  | HolderType.superpuck =>
    posLetter position ++ " " ++ toString (port % 16 + 1) ++ " " ++
      Char.toString (Char.ofNat (port / 16 + 65))
  | _ => "invalid"

example :
    port_tuple_to_str (fun _ => HolderType.normal)
      (some (Position.left, 16)) = "l 1 C" := by decide

example :
    port_tuple_to_str (fun _ => HolderType.superpuck)
      (some (Position.left, 16)) = "l 1 B" := by decide

/-- Python dict lookup on an association list: a missing key raises KeyError. -/
def pyDictGet {α : Type} (d : List (String × α)) (k : String) : Except String α :=
  match d.find? (fun kv => kv.1 == k) with
  | some kv => Except.ok kv.2
  | none => Except.error "KeyError"

/-- Python list element assignment `l[i] = v` for a nonnegative index:
out of range raises IndexError. -/
def pyListSet {α : Type} (l : List α) (i : Nat) (v : α) :
    Except String (List α) :=
  if i < l.length then Except.ok (l.set i v) else Except.error "IndexError"

/-- Snapshot of the robot driver attributes read by the gateway.  Numeric
attributes are Ints; attributes that may be Python None are Options; port
distances are modelled as tenths of the unit (the source formats floats with
one decimal place). -/
structure RobotState where
  status : Nat
  current_task : Option String
  task_message : String
  task_progress : String
  pins_lost : Int
  pins_mounted : Int
  closest_point : Int
  ln2_level : Option Int
  dumbbell_state : Option Int
  sample_locations : List (String × Option (Position × Nat))
  holder_types : Position → HolderType
  port_states : Position → List PortState
  port_distances : Position → List (Option Nat)
  height_errors : Position → Option Int
  gripper_command : Int
  lid_command : Int
  heater_command : Int
  heater_air_command : Int
  gripper_open : Int
  gripper_closed : Int
  lid_open : Int
  lid_closed : Int
  heater_hot : Int
  last_toolset_calibration : Option String
  last_left_calibration : Option String
  last_middle_calibration : Option String
  last_right_calibration : Option String
  last_goniometer_calibration : Option String

/-- RobotStatus bit flags, modelled from the external aspyrobotmx codes
library (need flags in the low bits, reason flags above; only the bits the
gateway reads are needed by the claims, and none of the claims depend on the
exact numeric values). -/
def RobotStatus_need_clear : Nat := 1

def RobotStatus_need_reset : Nat := 2

def RobotStatus_need_cal_magnet : Nat := 4

def RobotStatus_need_cal_cassette : Nat := 8

def RobotStatus_need_cal_goniometer : Nat := 16

def RobotStatus_need_cal_basic : Nat := 32

def RobotStatus_need_cal_all : Nat :=
  RobotStatus_need_cal_magnet ||| RobotStatus_need_cal_cassette |||
    RobotStatus_need_cal_goniometer ||| RobotStatus_need_cal_basic

/-- `bool(status & flag)` in the source. -/
def statusFlag (status flag : Nat) : Bool := status &&& flag != 0

/-- RobotDHS.needs_clear. -/
def needs_clear (r : RobotState) : Bool := statusFlag r.status RobotStatus_need_clear

/-- RobotDHS.needs_reset. -/
def needs_reset (r : RobotState) : Bool := statusFlag r.status RobotStatus_need_reset

/-- RobotDHS.needs_calibration. -/
def needs_calibration (r : RobotState) : Bool :=
  statusFlag r.status RobotStatus_need_cal_all

/-- RobotDHS.needs_toolset_calibration. -/
def needs_toolset_calibration (r : RobotState) : Bool :=
  statusFlag r.status RobotStatus_need_cal_magnet

/-- RobotDHS.needs_cassette_calibration. -/
def needs_cassette_calibration (r : RobotState) : Bool :=
  statusFlag r.status RobotStatus_need_cal_cassette

/-- RobotDHS.mounted: empty string if nothing on the goniometer, else the
encoded port; a missing 'goniometer' key raises KeyError. -/
def mounted (r : RobotState) : Except String String :=
  match pyDictGet r.sample_locations "goniometer" with
  | Except.error e => Except.error e
  | Except.ok none => Except.ok ""
  | Except.ok (some pt) => Except.ok (port_tuple_to_str r.holder_types (some pt))

/-- The location_to_state dict in RobotDHS.sample_state. -/
def locationToState (loc : String) : Option String :=
  if loc = "cavity" then some "on tong"
  else if loc = "picker" then some "on picker"
  else if loc = "placer" then some "on placer"
  else if loc = "goniometer" then some "on gonio"
  else none

/-- RobotDHS.sample_state: the first location (in dict order) holding a
truthy sample, mapped through location_to_state; 'no' when none; a truthy
sample at an unknown location name raises KeyError. -/
def sample_state (r : RobotState) : Except String String :=
  match r.sample_locations.find? (fun kv => kv.2.isSome) with
  | none => Except.ok "no"
  | some kv =>
    match locationToState kv.1 with
    | some s => Except.ok s
    | none => Except.error "KeyError"

/-- DumbbellState member names, modelled from the external aspyrobotmx codes
library (the repository's tests pin unknown = 0 by name and in_cradle = 1). -/
def dumbbellName (code : Int) : Option String :=
  if code = 0 then some "unknown"
  else if code = 1 then some "in_cradle"
  else if code = 2 then some "out"
  else if code = 3 then some "raised"
  else if code = 4 then some "in_tong"
  else none

/-- RobotDHS.dumbbell_state: 'bad' when the code is not a DumbbellState
member (the ValueError from the enum call is caught in the source). -/
def dumbbell_state (r : RobotState) : String :=
  match r.dumbbell_state with
  | none => "bad"
  | some c => (dumbbellName c).getD "bad"

/-- RobotDHS.ln2. -/
def ln2 (r : RobotState) : String :=
  match r.ln2_level with
  | some 0 => "no"
  | some 1 => "yes"
  | _ => "wrong"

/-- ASCII lower-casing by chars (String.toLower does not reduce in the
kernel). -/
def strLower (s : String) : String := String.mk (s.data.map Char.toLower)

/-- RobotDHS.state: `(current_task or 'unknown').lower()`. -/
def dhsState (r : RobotState) : String :=
  let s := match r.current_task with
    | none => "unknown"
    | some t => if t = "" then "unknown" else t
  strLower s

/-- Wrap a string in literal braces, as the DCSS wire format does. -/
def braced (s : String) : String := "\x7b" ++ s ++ "\x7d"

/-- Render a Python bool with the ':d' format spec. -/
def boolInt (b : Bool) : String := if b then "1" else "0"

/-- `' '.join(...)`. -/
def joinSpace (l : List String) : String := String.intercalate " " l

/-- RobotDHS.send_set_output_string: the argument of the one send_xos3 call. -/
def send_set_output_string (r : RobotState) : Except String String :=
  Except.ok
    ("htos_set_string_completed robot_output normal 0 " ++
      toString r.gripper_command ++ " 0 " ++ toString r.lid_command ++
      " 0 0 0 0 0 0 0 0 0 " ++ toString r.heater_air_command ++ " " ++
      toString r.heater_command ++ " 0")

/-- RobotDHS.send_set_input_string: the argument of the one send_xos3 call. -/
def send_set_input_string (r : RobotState) : Except String String :=
  Except.ok
    ("htos_set_string_completed robot_input normal 0 0 0 0 0 0 0 0 " ++
      toString r.gripper_open ++ " " ++ toString r.gripper_closed ++ " 0 " ++
      toString r.lid_closed ++ " " ++ toString r.lid_open ++ " " ++
      toString r.heater_hot ++ " 0 0")

/-- RobotDHS.send_set_status_string: the argument of the one send_xos3 call;
the mounted field re-reads the sample-locations dict and may raise. -/
def send_set_status_string (r : RobotState) : Except String String :=
  match mounted r with
  | Except.error e => Except.error e
  | Except.ok mountedStr =>
    Except.ok
      ("htos_set_string_completed robot_status normal status: " ++
        toString r.status ++
        " need_reset: " ++ boolInt (needs_reset r) ++
        " need_cal: " ++ boolInt (needs_calibration r) ++
        " state: " ++ braced (dhsState r) ++
        " warning: " ++ braced "" ++
        " cal_msg: " ++ braced r.task_message ++
        " cal_step: " ++ braced r.task_progress ++
        " mounted: " ++ braced mountedStr ++
        " pin_lost: " ++ toString r.pins_lost ++
        " pin_mounted: " ++ toString r.pins_mounted ++
        " manual_mode: 0" ++
        " need_mag_cal: " ++ boolInt (needs_toolset_calibration r) ++
        " need_cas_cal: " ++ boolInt (needs_cassette_calibration r) ++
        " need_clear: " ++ boolInt (needs_clear r))

/-- RobotDHS.send_set_state_string: reads the four sample-location keys (a
missing key raises KeyError), then formats the robot_state line. -/
def send_set_state_string (r : RobotState) : Except String String :=
  match pyDictGet r.sample_locations "goniometer" with
  | Except.error e => Except.error e
  | Except.ok goniometerSample =>
  match pyDictGet r.sample_locations "cavity" with
  | Except.error e => Except.error e
  | Except.ok cavitySample =>
  match pyDictGet r.sample_locations "picker" with
  | Except.error e => Except.error e
  | Except.ok pickerSample =>
  match pyDictGet r.sample_locations "placer" with
  | Except.error e => Except.error e
  | Except.ok placerSample =>
  match sample_state r with
  | Except.error e => Except.error e
  | Except.ok sampleStateStr =>
  match mounted r with
  | Except.error e => Except.error e
  | Except.ok mountedStr =>
    Except.ok
      ("htos_set_string_completed robot_state normal " ++
        braced sampleStateStr ++ " " ++
        braced (dumbbell_state r) ++ " P" ++
        toString r.closest_point ++ " " ++
        ln2 r ++ " " ++
        braced mountedStr ++ " 0 0 0 " ++
        boolInt goniometerSample.isSome ++ " 0 0 " ++
        braced (port_tuple_to_str r.holder_types cavitySample) ++ " " ++
        braced (port_tuple_to_str r.holder_types pickerSample) ++ " " ++
        braced (port_tuple_to_str r.holder_types placerSample) ++
        " 0 0 0 0")

/-- One position's contribution in RobotDHS.send_set_robot_cassette_string:
port-state codes, the mounted port overwritten with 'm' (IndexError if the
mounted index is out of range), prefixed by the holder-type code (KeyError
for HolderType.error, which is absent from the source map). -/
def cassette_segment (r : RobotState) (mountedPos : Option Position)
    (mountedPort : Nat) (position : Position) : Except String String :=
  let states := (r.port_states position).map portStateMap
  match (if mountedPos = some position
         then pyListSet states mountedPort "m"
         else Except.ok states) with
  | Except.error e => Except.error e
  | Except.ok states2 =>
    match holderTypeMap (r.holder_types position) with
    | Except.error e => Except.error e
    | Except.ok code => Except.ok (" " ++ code ++ " " ++ joinSpace states2)

/-- RobotDHS.send_set_robot_cassette_string: the argument of the one
send_xos3 call. -/
def send_set_robot_cassette_string (r : RobotState) : Except String String :=
  match pyDictGet r.sample_locations "goniometer" with
  | Except.error e => Except.error e
  | Except.ok sampleOnGoni =>
    let mountedPos := sampleOnGoni.map Prod.fst
    let mountedPort := (sampleOnGoni.map Prod.snd).getD 0
    match cassette_segment r mountedPos mountedPort Position.left with
    | Except.error e => Except.error e
    | Except.ok s1 =>
    match cassette_segment r mountedPos mountedPort Position.middle with
    | Except.error e => Except.error e
    | Except.ok s2 =>
    match cassette_segment r mountedPos mountedPort Position.right with
    | Except.error e => Except.error e
    | Except.ok s3 =>
      Except.ok ("htos_set_string_completed robot_cassette normal" ++
        s1 ++ s2 ++ s3)

/-- Timestamp rendering in RobotDHS.send_calibration_timestamps:
`'{%s}' % ts if ts else '{}'` (None and the empty string are falsy). -/
def tsBrace : Option String → String
| none => braced ""
| some ts => if ts = "" then braced "" else braced ts

/-- RobotDHS.send_calibration_timestamps: the argument of the one send_xos3
call. -/
def send_calibration_timestamps (r : RobotState) : Except String String :=
  Except.ok
    ("htos_set_string_completed ts_robot_cal normal " ++
      joinSpace [tsBrace r.last_toolset_calibration,
                 tsBrace r.last_left_calibration,
                 tsBrace r.last_middle_calibration,
                 tsBrace r.last_right_calibration,
                 tsBrace r.last_goniometer_calibration])

/-- Distance rendering in RobotDHS.send_set_robot_force_string: 'uuuu' for
None, else the value formatted with one decimal place (distances are
modelled as tenths). -/
def fmtDistance : Option Nat → String
| none => "uuuu"
| some tenths => toString (tenths / 10) ++ "." ++ toString (tenths % 10)

/-- RobotDHS.send_set_robot_force_string: the argument of the one send_xos3
call; `height_errors[position] or 0` renders falsy values as 0. -/
def send_set_robot_force_string (r : RobotState) (position : Position) :
    Except String String :=
  Except.ok
    ("htos_set_string_completed robot_force_" ++ posName position ++
      " normal " ++ toString ((r.height_errors position).getD 0) ++ " " ++
      joinSpace ((r.port_distances position).map fmtDistance))

deriving instance DecidableEq for Except

/-- A benign robot snapshot used by examples and witnesses, mirroring the
fixtures of the repository's tests. -/
def baseRobot : RobotState where
  status := 0
  current_task := some "idle"
  task_message := "all good"
  task_progress := "1 of 10"
  pins_lost := 0
  pins_mounted := 0
  closest_point := 18
  ln2_level := some 0
  dumbbell_state := some 1
  sample_locations :=
    [("goniometer", none), ("cavity", some (Position.left, 0)),
     ("picker", none), ("placer", none)]
  holder_types := fun _ => HolderType.normal
  port_states := fun _ => List.replicate 96 PortState.unknown
  port_distances := fun _ => [some 15, none]
  height_errors := fun _ => none
  gripper_command := 0
  lid_command := 0
  heater_command := 0
  heater_air_command := 0
  gripper_open := 0
  gripper_closed := 0
  lid_open := 0
  lid_closed := 0
  heater_hot := 0
  last_toolset_calibration := some "2016/02/08 11:39:12"
  last_left_calibration := none
  last_middle_calibration := none
  last_right_calibration := none
  last_goniometer_calibration := none

example :
    send_set_state_string baseRobot =
      Except.ok ("htos_set_string_completed robot_state normal " ++
        "\x7bon tong\x7d \x7bin_cradle\x7d P18 no \x7b\x7d 0 0 0 0 0 0 " ++
        "\x7bl 1 A\x7d \x7binvalid\x7d \x7binvalid\x7d 0 0 0 0") := by decide

example :
    send_set_status_string
      { baseRobot with
          status := 32777
          sample_locations := [("goniometer", some (Position.left, 0))]
          pins_lost := 123
          pins_mounted := 456 } =
      Except.ok ("htos_set_string_completed robot_status normal " ++
        "status: 32777 need_reset: 0 need_cal: 1 state: \x7bidle\x7d " ++
        "warning: \x7b\x7d cal_msg: \x7ball good\x7d " ++
        "cal_step: \x7b1 of 10\x7d mounted: \x7bl 1 A\x7d " ++
        "pin_lost: 123 pin_mounted: 456 manual_mode: 0 " ++
        "need_mag_cal: 0 need_cas_cal: 1 need_clear: 1") := by decide

example :
    send_set_robot_cassette_string
      { baseRobot with
          sample_locations := [("goniometer", some (Position.left, 0))]
          port_states := fun p =>
            match p with
            | Position.left => List.replicate 96 PortState.full
            | Position.middle => List.replicate 96 PortState.empty
            | Position.right => List.replicate 96 PortState.unknown
          holder_types := fun p =>
            match p with
            | Position.left => HolderType.normal
            | Position.middle => HolderType.superpuck
            | Position.right => HolderType.unknown } =
      Except.ok ("htos_set_string_completed robot_cassette normal " ++
        joinSpace ("1" :: "m" :: List.replicate 95 "1") ++ " " ++
        joinSpace ("3" :: List.replicate 96 "0") ++ " " ++
        joinSpace ("u" :: List.replicate 96 "u")) := by decide

example :
    send_calibration_timestamps baseRobot =
      Except.ok ("htos_set_string_completed ts_robot_cal normal " ++
        "\x7b2016/02/08 11:39:12\x7d \x7b\x7d \x7b\x7d \x7b\x7d \x7b\x7d") := by
  decide

example :
    send_set_output_string
      { baseRobot with
          gripper_command := 1, lid_command := 1,
          heater_command := 1, heater_air_command := 1 } =
      Except.ok ("htos_set_string_completed robot_output normal " ++
        "0 1 0 1 0 0 0 0 0 0 0 0 0 1 1 0") := by decide

example :
    send_set_input_string
      { baseRobot with
          gripper_open := 1, gripper_closed := 1, lid_open := 1,
          lid_closed := 1, heater_hot := 1 } =
      Except.ok ("htos_set_string_completed robot_input normal " ++
        "0 0 0 0 0 0 0 0 1 1 0 1 1 1 0 0") := by decide

example :
    send_set_robot_force_string baseRobot Position.left =
      Except.ok ("htos_set_string_completed robot_force_left normal " ++
        "0 1.5 uuuu") := by decide

/-- Accumulate decimal digits; any non-digit character fails the parse. -/
def parseDigits : List Char → Nat → Option Nat
| [], acc => some acc
| c :: rest, acc =>
  if c.isDigit then parseDigits rest (acc * 10 + (c.toNat - 48)) else none

/-- Python `int(s)` on a protocol numeral: an optional minus sign followed
by at least one decimal digit; anything else raises ValueError (modelled as
none).  Implemented over the character list so it reduces in the kernel
(String.toInt? does not). -/
def pyInt? (s : String) : Option Int :=
  match s.data with
  | [] => none
  | c :: rest =>
    if c = Char.ofNat 45 then
      match rest with
      | [] => none
      | _ :: _ => (parseDigits rest 0).map (fun n => -(n : Int))
    else (parseDigits (c :: rest) 0).map (fun n => (n : Int))

/-- Python `s.endswith(suffix)`, over character lists so it reduces in the
kernel (String.endsWith does not). -/
def pyEndsWith (s suffix : String) : Bool := suffix.data.isSuffixOf s.data

/-- Terminal/non-terminal calls made on an operation handle. -/
inductive OutcomeCall
| opCompleted (message : String)
| opError (message : String)
| opUpdate (message : String)
deriving DecidableEq, Repr

/-- The per-position port dicts passed to the driver (reset_ports, probe). -/
structure PortsPatch where
  left : List Int
  middle : List Int
  right : List Int
deriving DecidableEq, Repr

/-- Read one position of a PortsPatch. -/
def PortsPatch.get (p : PortsPatch) : Position → List Int
| Position.left => p.left
| Position.middle => p.middle
| Position.right => p.right

/-- Replace one position of a PortsPatch. -/
def PortsPatch.setPos (p : PortsPatch) : Position → List Int → PortsPatch
| Position.left, l => { p with left := l }
| Position.middle, l => { p with middle := l }
| Position.right, l => { p with right := l }

/-- The all-zero patch built by robot_config_set_index_state. -/
def zeroPatch : PortsPatch :=
  { left := List.replicate 96 0, middle := List.replicate 96 0,
    right := List.replicate 96 0 }

/-- Robot driver action calls issued by the handlers.  set_port_state can
pass Python None as a position, hence the Option. -/
inductive DriverCall
| clear (what : String)
| setGripper (value : Int)
| setLid (value : Int)
| setHeater (value : Int)
| setHeaterAir (value : Int)
| resetHolders (positions : List (Option Position))
| resetPorts (ports : PortsPatch)
| setSampleState (position : Position) (column : Char) (port : Int)
    (state : Int)
| probe (spec : PortsPatch)
| runOperation (operationName : String)
| prepareForMount
| mount (position : Position) (column : String) (row : Int)
| dismount (position : Position) (column : String) (row : Int)
deriving DecidableEq, Repr

/-- Observable effects of one dispatched handler, in program order. -/
inductive Event
| log (message : String)
| driver (call : DriverCall)
| outcome (call : OutcomeCall)
deriving DecidableEq, Repr

/-- The driver calls among a handler's events. -/
def driverCalls (events : List Event) : List DriverCall :=
  events.filterMap (fun e => match e with
    | Event.driver c => some c
    | _ => none)

/-- The operation outcome calls among a handler's events. -/
def outcomeCalls (events : List Event) : List OutcomeCall :=
  events.filterMap (fun e => match e with
    | Event.outcome c => some c
    | _ => none)

/-- The log messages among a handler's events. -/
def logMessages (events : List Event) : List String :=
  events.filterMap (fun e => match e with
    | Event.log m => some m
    | _ => none)

/-- Python truthiness of an optional string (None and '' are falsy). -/
def optTruthy : Option String → Bool
| none => false
| some s => !(s == "")

/-- Python `a or dflt` for an optional string. -/
def pyOr (a : Option String) (dflt : String) : String :=
  match a with
  | none => dflt
  | some s => if s = "" then dflt else s

/-- RobotDHS.operation_callback: the outcome calls made on the operation for
one driver callback invocation with the given stage, message and error. -/
def operation_callback (stage : String) (message : Option String)
    (error : Option String) : List OutcomeCall :=
  if stage = "end" then
    if optTruthy error then [OutcomeCall.opError (pyOr error "")]
    else [OutcomeCall.opCompleted (pyOr message "OK")]
  else []

/-- Output enum indexes from dhs.py. -/
def Output_gripper : Int := 1

/-- Output enum: lid. -/
def Output_lid : Int := 3

/-- Output enum: heater. -/
def Output_heater : Int := 14

/-- Output enum: heater_air. -/
def Output_heater_air : Int := 13

/-- RobotDHS.robot_config_hw_output_switch after the `int(output)`
conversion: one driver set call toggling the matching output, or a single
'Not implemented' operation error. -/
def hw_output_switch (r : RobotState) (output : Int) :
    Except String (List Event) :=
  if output = Output_gripper then
    Except.ok [Event.driver (DriverCall.setGripper (1 - r.gripper_command))]
  else if output = Output_lid then
    Except.ok [Event.driver (DriverCall.setLid (1 - r.lid_command))]
  else if output = Output_heater then
    Except.ok [Event.driver (DriverCall.setHeater (1 - r.heater_command))]
  else if output = Output_heater_air then
    Except.ok [Event.driver (DriverCall.setHeaterAir (1 - r.heater_air_command))]
  else
    Except.ok [Event.outcome (OutcomeCall.opError "Not implemented")]

/-- RobotDHS.robot_config_hw_output_switch: `int(output)` raises ValueError
on a non-numeric argument. -/
def robot_config_hw_output_switch (r : RobotState) (output : String) :
    Except String (List Event) :=
  match pyInt? output with
  | none => Except.error "ValueError"
  | some v => hw_output_switch r v

/-- Normalize one bound of a Python slice for a list of length n: negative
indexes count from the end, then the bound is clamped to [0, n]. -/
def pySliceNorm (n i : Int) : Int :=
  let i2 := if i < 0 then i + n else i
  min (max i2 0) n

/-- Python slice assignment `l[a:b] = xs`: replace the (possibly empty)
range [a', max a' b') by xs, where a' and b' are the normalized bounds. -/
def pySetSlice {α : Type} (l : List α) (a b : Int) (xs : List α) : List α :=
  let n : Int := l.length
  let a2 := pySliceNorm n a
  let b2 := max a2 (pySliceNorm n b)
  l.take a2.toNat ++ xs ++ l.drop b2.toNat

/-- Python slice read `l[a:b]` for nonnegative literal bounds (as used by
robot_config_probe). -/
def pyGetSlice {α : Type} (l : List α) (a b : Nat) : List α :=
  (l.drop a).take (b - a)

/-- The list ['left', 'middle', 'right'] indexed in
robot_config_set_index_state. -/
def positionsList : List Position := [Position.left, Position.middle, Position.right]

/-- Python list read `l[i]`: negative indexes count from the end; out of
range raises IndexError. -/
def pyListGet {α : Type} (l : List α) (i : Int) : Except String α :=
  let n : Int := l.length
  let i2 := if i < 0 then i + n else i
  if h : 0 ≤ i2 ∧ i2 < n then
    Except.ok (l.get ⟨i2.toNat, by
      have h2 := h.2
      omega⟩)
  else Except.error "IndexError"

/-- SAMPLES_PER_POSITION from dhs.py. -/
def SAMPLES_PER_POSITION : Nat := 96

/-- RobotDHS.robot_config_set_index_state after the int conversions of start
and port_count (state stays a string and is never read): decode the
flattened index, build the zeroed patch, slice-assign ones over the
addressed range, and issue the single reset_ports driver call. -/
def robot_config_set_index_state (start portCount : Int) (state : String) :
    Except String (List Event) :=
  let samplesAndTypePerPosition : Int := SAMPLES_PER_POSITION + 1
  let positionIndex := start.fdiv samplesAndTypePerPosition
  match pyListGet positionsList positionIndex with
  | Except.error e => Except.error e
  | Except.ok position =>
    let start2 := start.fmod samplesAndTypePerPosition
    let start3 := start2 - 1
    let endIdx := start3 + portCount
    let ports := zeroPatch
    let newList := pySetSlice (ports.get position) start3 endIdx
      (List.replicate portCount.toNat 1)
    let ports2 := ports.setPos position newList
    Except.ok [Event.driver (DriverCall.resetPorts ports2)]

example :
    robot_config_set_index_state 1 8 "b" =
      Except.ok [Event.driver (DriverCall.resetPorts
        { left := List.replicate 8 1 ++ List.replicate 88 0,
          middle := List.replicate 96 0,
          right := List.replicate 96 0 })] := by decide

example :
    robot_config_set_index_state 114 1 "b" =
      Except.ok [Event.driver (DriverCall.resetPorts
        { left := List.replicate 96 0,
          middle := List.replicate 16 0 ++ 1 :: List.replicate 79 0,
          right := List.replicate 96 0 })] := by decide

example :
    robot_config_set_index_state 97 2 "b" =
      Except.ok [Event.driver (DriverCall.resetPorts
        { left := List.replicate 96 0,
          middle := List.replicate 95 0 ++ 1 :: 1 :: List.replicate 1 0,
          right := List.replicate 96 0 })] := by decide

/-- RobotDHS.robot_config_clear_status. -/
def robot_config_clear_status : Except String (List Event) :=
  Except.ok [Event.driver (DriverCall.clear "status")]

/-- RobotDHS.robot_config_clear delegates to clear_status. -/
def robot_config_clear : Except String (List Event) :=
  robot_config_clear_status

/-- RobotDHS.robot_config_clear_all. -/
def robot_config_clear_all : Except String (List Event) :=
  Except.ok [Event.driver (DriverCall.clear "all")]

/-- RobotDHS.robot_config_reset_cassette. -/
def robot_config_reset_cassette : Except String (List Event) :=
  Except.ok [Event.driver (DriverCall.resetHolders
    [some Position.left, some Position.middle, some Position.right])]

/-- RobotDHS.robot_config_reset_mounted_counter (no callback is supplied in
the source, so no outcome call is ever made for this operation). -/
def robot_config_reset_mounted_counter : Except String (List Event) :=
  Except.ok [Event.driver (DriverCall.runOperation "reset_mount_counters")]

/-- The dict `{'l': 'left', 'm': 'middle', 'r': 'right'}` looked up without
lower-casing (robot_config_set_port_state uses .get, so no exception). -/
def posFromChar (c : Char) : Option Position :=
  let s := Char.toString c
  if s = "l" then some Position.left
  else if s = "m" then some Position.middle
  else if s = "r" then some Position.right
  else none

/-- RobotDHS.robot_config_set_port_state: only the reset-holder-to-unknown
special case is implemented; everything else is a 'Not implemented'
operation error. -/
def robot_config_set_port_state (port state : String) :
    Except String (List Event) :=
  if pyEndsWith port "X0" && (state == "u") then
    Except.ok [Event.driver (DriverCall.resetHolders [posFromChar port.front])]
  else
    Except.ok [Event.outcome (OutcomeCall.opError "Not implemented")]

/-- SampleState.goniometer from the external aspyrobotmx codes library
(the exact numeric value is irrelevant to the claims). -/
def SampleState_goniometer : Int := 2

/-- The try-block of RobotDHS.robot_config_set_mounted: unpack the argument
into exactly three characters, look the lower-cased position letter up,
upper-case the column, parse the port digit; any failure is the caught
exception path. -/
def set_mounted_parse (arg : String) : Option (Position × Char × Int) :=
  match arg.toList with
  | [p, c, d] =>
    match posFromChar (Char.toLower p) with
    | none => none
    | some position =>
      match pyInt? (Char.toString d) with
      | none => none
      | some port => some (position, Char.toUpper c, port)
  | _ => none

/-- RobotDHS.robot_config_set_mounted: on a parse failure the bare except
reports 'Invalid argument'; otherwise one set_sample_state driver call. -/
def robot_config_set_mounted (arg : String) : Except String (List Event) :=
  match set_mounted_parse arg with
  | none => Except.ok [Event.outcome (OutcomeCall.opError "Invalid argument")]
  | some (position, column, port) =>
    Except.ok [Event.driver
      (DriverCall.setSampleState position column port SampleState_goniometer)]

/-- RobotDHS.robot_config_probe: `int(p)` over all arguments (ValueError
escapes on a bad one), then slice the flat 97-per-position layout into the
three 96-element specs, skipping each holder-type element. -/
def robot_config_probe (ports : List String) : Except String (List Event) :=
  match ports.mapM pyInt? with
  | none => Except.error "ValueError"
  | some ns =>
    let n := SAMPLES_PER_POSITION + 1
    Except.ok [Event.driver (DriverCall.probe
      { left := pyGetSlice ns 1 n,
        middle := pyGetSlice ns (n + 1) (2 * n),
        right := pyGetSlice ns (2 * n + 1) (3 * n) })]

/-- The robot_config_<task> handler names defined on RobotDHS. -/
def registered_tasks : List String :=
  ["clear", "clear_status", "clear_all", "hw_output_switch",
   "reset_cassette", "set_index_state", "set_port_state",
   "reset_mounted_counter", "set_mounted", "probe"]

/-- RobotDHS.robot_config: route to robot_config_<task> when such a method
exists (an argument-count mismatch raises TypeError at the call, and int
conversions raise ValueError), otherwise log and do nothing else. -/
def robot_config (r : RobotState) (task : String) (args : List String) :
    Except String (List Event) :=
  if task = "clear" then
    match args with
    | [] => robot_config_clear
    | _ => Except.error "TypeError"
  else if task = "clear_status" then
    match args with
    | [] => robot_config_clear_status
    | _ => Except.error "TypeError"
  else if task = "clear_all" then
    match args with
    | [] => robot_config_clear_all
    | _ => Except.error "TypeError"
  else if task = "hw_output_switch" then
    match args with
    | [output] => robot_config_hw_output_switch r output
    | _ => Except.error "TypeError"
  else if task = "reset_cassette" then
    match args with
    | [] => robot_config_reset_cassette
    | _ => Except.error "TypeError"
  else if task = "set_index_state" then
    match args with
    | [start, portCount, state] =>
      match pyInt? start, pyInt? portCount with
      | some s, some c => robot_config_set_index_state s c state
      | _, _ => Except.error "ValueError"
    | _ => Except.error "TypeError"
  else if task = "set_port_state" then
    match args with
    | [port, state] => robot_config_set_port_state port state
    | _ => Except.error "TypeError"
  else if task = "reset_mounted_counter" then
    match args with
    | [] => robot_config_reset_mounted_counter
    | _ => Except.error "TypeError"
  else if task = "set_mounted" then
    match args with
    | [arg] => robot_config_set_mounted arg
    | _ => Except.error "TypeError"
  else if task = "probe" then
    robot_config_probe args
  else
    Except.ok [Event.log ("Operation robot_config " ++ task ++
      " is not handled")]

/-- The dict `{'r': 'right', 'm': 'middle', 'l': 'left'}` indexed with the
whole cassette argument in mount_crystal (a bad token raises KeyError). -/
def cassetteLookup (s : String) : Option Position :=
  if s = "r" then some Position.right
  else if s = "m" then some Position.middle
  else if s = "l" then some Position.left
  else none

/-- RobotDHS.mount_crystal: log, resolve the position letter (KeyError on an
invalid token), parse the row (ValueError), then the single mount driver
call. -/
def mount_crystal (cassette row column : String) (args : List String) :
    Except String (List Event) :=
  let logEvent := Event.log ("mount_crystal: " ++ cassette ++ " " ++ row ++
    " " ++ column)
  match cassetteLookup cassette with
  | none => Except.error "KeyError"
  | some position =>
    match pyInt? row with
    | none => Except.error "ValueError"
    | some rowN =>
      Except.ok [logEvent, Event.driver (DriverCall.mount position column rowN)]

/-- RobotDHS.dismount_crystal, symmetric to mount_crystal. -/
def dismount_crystal (cassette row column : String) (args : List String) :
    Except String (List Event) :=
  let logEvent := Event.log ("dismount_crystal: " ++ cassette ++ " " ++ row ++
    " " ++ column)
  match cassetteLookup cassette with
  | none => Except.error "KeyError"
  | some position =>
    match pyInt? row with
    | none => Except.error "ValueError"
    | some rowN =>
      Except.ok [logEvent,
        Event.driver (DriverCall.dismount position column rowN)]

/-- RobotDHS.mount_next_crystal delegates to mount_crystal with the target
port arguments. -/
def mount_next_crystal (currentCassette currentRow currentColumn
    cassette row column : String) (args : List String) :
    Except String (List Event) :=
  let logEvent := Event.log ("mount_next_crystal: " ++ currentCassette ++
    " " ++ currentRow ++ " " ++ currentColumn ++ " " ++ cassette ++ " " ++
    row ++ " " ++ column)
  match mount_crystal cassette row column [] with
  | Except.error e => Except.error e
  | Except.ok events => Except.ok (logEvent :: events)

/-- RobotDHS.prepare_mount_crystal: log, synchronously send the non-terminal
'OK to prepare' update, then the single prepare_for_mount driver call. -/
def prepare_mount_crystal (args : List String) : List Event :=
  [Event.log "prepare_mount_crystal",
   Event.outcome (OutcomeCall.opUpdate "OK to prepare"),
   Event.driver DriverCall.prepareForMount]

/-- RobotDHS.prepare_dismount_crystal: log, then delegate to
prepare_mount_crystal with no arguments. -/
def prepare_dismount_crystal (args : List String) : List Event :=
  Event.log "prepare_dismount_crystal" :: prepare_mount_crystal []

/-- RobotDHS.prepare_mount_next_crystal: log, then delegate to
prepare_mount_crystal with no arguments. -/
def prepare_mount_next_crystal (args : List String) : List Event :=
  Event.log "prepare_mount_next_crystal" :: prepare_mount_crystal []

/-- RobotDHS.robot_standby: always completes immediately with no driver
call. -/
def robot_standby (args : List String) : List Event :=
  [Event.outcome (OutcomeCall.opCompleted "OK")]

/-- C4: for every position and index in [0, 96), a normal- or
calibration-cassette holder encodes the port as
"(first letter of position) (index % 8 + 1) (chr(ord A + index / 8))" and a
superpuck holder encodes it as
"(first letter of position) (index % 16 + 1) (chr(ord A + index / 16))";
in particular (left, 16) is "l 1 C" for a normal holder and "l 1 B" for a
superpuck holder. -/
theorem C4_port_encoding (holderTypes : Position → HolderType)
    (pos : Position) (idx : Nat) (hidx : idx < 96) :
    ((holderTypes pos = HolderType.normal ∨
        holderTypes pos = HolderType.calibration) →
      port_tuple_to_str holderTypes (some (pos, idx)) =
        posLetter pos ++ " " ++ toString (idx % 8 + 1) ++ " " ++
          Char.toString (Char.ofNat (65 + idx / 8)))
    ∧ (holderTypes pos = HolderType.superpuck →
      port_tuple_to_str holderTypes (some (pos, idx)) =
        posLetter pos ++ " " ++ toString (idx % 16 + 1) ++ " " ++
          Char.toString (Char.ofNat (65 + idx / 16))) := by
  constructor
  · intro h
    rcases h with h | h <;> simp [port_tuple_to_str, h, Nat.add_comm]
  · intro h
    simp [port_tuple_to_str, h, Nat.add_comm]

/-- Witness for C4 at the documented examples: (left, 16) with a normal
holder encodes to "l 1 C" and with a superpuck holder to "l 1 B". -/
theorem C4_port_encoding_witness :
    16 < 96 ∧
    port_tuple_to_str (fun _ => HolderType.normal)
      (some (Position.left, 16)) = "l 1 C" ∧
    port_tuple_to_str (fun _ => HolderType.superpuck)
      (some (Position.left, 16)) = "l 1 B" := by
  refine ⟨by decide, ?_, ?_⟩
  · have h := (C4_port_encoding (fun _ => HolderType.normal)
      Position.left 16 (by decide)).1 (Or.inl rfl)
    exact h.trans (by decide)
  · have h := (C4_port_encoding (fun _ => HolderType.superpuck)
      Position.left 16 (by decide)).2 rfl
    exact h.trans (by decide)

/-- C5: the port encoder is deterministic and total: an empty/absent port
tuple encodes to the literal "invalid" regardless of the holder-type map, a
non-empty tuple whose position has an unknown or error holder type also
encodes to "invalid", and every tuple has exactly one rendering given the
current holder-type map. -/
theorem C5_port_encoder_total (holderTypes : Position → HolderType)
    (p : Position) (i : Nat) (pt : Option (Position × Nat)) (s1 s2 : String) :
    port_tuple_to_str holderTypes none = "invalid"
    ∧ (holderTypes p = HolderType.unknown ∨ holderTypes p = HolderType.error →
        port_tuple_to_str holderTypes (some (p, i)) = "invalid")
    ∧ (port_tuple_to_str holderTypes pt = s1 →
        port_tuple_to_str holderTypes pt = s2 → s1 = s2) := by
  refine ⟨rfl, ?_, fun h1 h2 => h1.symm.trans h2⟩
  intro h
  rcases h with h | h <;> simp [port_tuple_to_str, h]

/-- Witness for C5: an absent tuple renders "invalid" under an
all-superpuck map, an unknown-holder port renders "invalid", and the
rendering of (left, 3) is unique. -/
theorem C5_port_encoder_total_witness :
    port_tuple_to_str (fun _ => HolderType.superpuck) none = "invalid"
    ∧ port_tuple_to_str (fun _ => HolderType.unknown)
        (some (Position.left, 3)) = "invalid"
    ∧ ("l 4 A" = "l 4 A" → "l 4 A" = "l 4 A") :=
  ⟨(C5_port_encoder_total (fun _ => HolderType.superpuck) Position.left 3
      none "" "").1,
   (C5_port_encoder_total (fun _ => HolderType.unknown) Position.left 3
      none "" "").2.1 (Or.inl rfl),
   fun h => h⟩

/-- C6: the operation callback sends exactly one operation_error with the
driver's error payload forwarded verbatim when the stage is 'end' and the
error is non-empty; exactly one operation_completed with the message (or
'OK' when the message is absent or empty) when the stage is 'end' and the
error is empty; and no outcome call at all when the stage is not 'end'. -/
theorem C6_operation_callback (stage : String)
    (message error : Option String) :
    (∀ e, stage = "end" → error = some e → e ≠ "" →
      operation_callback stage message error = [OutcomeCall.opError e])
    ∧ (∀ m, stage = "end" → optTruthy error = false → message = some m →
        m ≠ "" →
      operation_callback stage message error = [OutcomeCall.opCompleted m])
    ∧ (stage = "end" → optTruthy error = false →
        (message = none ∨ message = some "") →
      operation_callback stage message error = [OutcomeCall.opCompleted "OK"])
    ∧ (stage ≠ "end" → operation_callback stage message error = []) := by
  refine ⟨?_, ?_, ?_, ?_⟩
  · intro e hs he hne
    subst hs; subst he
    simp [operation_callback, optTruthy, pyOr, hne]
  · intro m hs herr hm hne
    subst hs; subst hm
    simp [operation_callback, herr, pyOr, hne]
  · intro hs herr hm
    subst hs
    rcases hm with hm | hm <;> subst hm <;>
      simp [operation_callback, herr, pyOr]
  · intro hs
    simp [operation_callback, hs]

/-- Witness for C6 at concrete callback invocations: an end-stage error
forwards the payload, an end-stage success with a message completes with it,
an end-stage success without a message completes with 'OK', and an 'update'
stage makes no outcome call. -/
theorem C6_operation_callback_witness :
    operation_callback "end" (some "done") (some "boom") =
      [OutcomeCall.opError "boom"]
    ∧ operation_callback "end" (some "done") none =
      [OutcomeCall.opCompleted "done"]
    ∧ operation_callback "end" none none = [OutcomeCall.opCompleted "OK"]
    ∧ operation_callback "update" (some "x") none = [] :=
  ⟨(C6_operation_callback "end" (some "done") (some "boom")).1 "boom" rfl rfl
      (by decide),
   (C6_operation_callback "end" (some "done") none).2.1 "done" rfl rfl rfl
      (by decide),
   (C6_operation_callback "end" none none).2.2.1 rfl rfl (Or.inl rfl),
   (C6_operation_callback "update" (some "x") none).2.2.2 (by decide)⟩

/-- C7: hw_output_switch with one of the four implemented output ids
(gripper = 1, lid = 3, heater = 14, heater_air = 13) issues exactly one
driver set call for the matching output with value 1 - current command
value; any other id makes no driver call and errors the operation with
'Not implemented'. -/
theorem C7_hw_output_switch (r : RobotState) (output : Int) :
    (output = 1 → hw_output_switch r output =
      Except.ok [Event.driver (DriverCall.setGripper (1 - r.gripper_command))])
    ∧ (output = 3 → hw_output_switch r output =
      Except.ok [Event.driver (DriverCall.setLid (1 - r.lid_command))])
    ∧ (output = 14 → hw_output_switch r output =
      Except.ok [Event.driver (DriverCall.setHeater (1 - r.heater_command))])
    ∧ (output = 13 → hw_output_switch r output =
      Except.ok [Event.driver
        (DriverCall.setHeaterAir (1 - r.heater_air_command))])
    ∧ (output ≠ 1 → output ≠ 3 → output ≠ 14 → output ≠ 13 →
      hw_output_switch r output =
        Except.ok [Event.outcome (OutcomeCall.opError "Not implemented")]) := by
  refine ⟨?_, ?_, ?_, ?_, ?_⟩ <;>
    intros <;>
    simp_all [hw_output_switch, Output_gripper, Output_lid, Output_heater,
      Output_heater_air]

/-- Witness for C7 on a concrete robot with all command values 0: ids 1, 3,
14 and 13 each toggle to 1, and id 5 reports 'Not implemented'. -/
theorem C7_hw_output_switch_witness :
    hw_output_switch baseRobot 1 =
      Except.ok [Event.driver (DriverCall.setGripper 1)]
    ∧ hw_output_switch baseRobot 3 =
      Except.ok [Event.driver (DriverCall.setLid 1)]
    ∧ hw_output_switch baseRobot 14 =
      Except.ok [Event.driver (DriverCall.setHeater 1)]
    ∧ hw_output_switch baseRobot 13 =
      Except.ok [Event.driver (DriverCall.setHeaterAir 1)]
    ∧ hw_output_switch baseRobot 5 =
      Except.ok [Event.outcome (OutcomeCall.opError "Not implemented")] :=
  ⟨((C7_hw_output_switch baseRobot 1).1 rfl).trans (by decide),
   ((C7_hw_output_switch baseRobot 3).2.1 rfl).trans (by decide),
   ((C7_hw_output_switch baseRobot 14).2.2.1 rfl).trans (by decide),
   ((C7_hw_output_switch baseRobot 13).2.2.2.1 rfl).trans (by decide),
   (C7_hw_output_switch baseRobot 5).2.2.2.2 (by decide) (by decide)
     (by decide) (by decide)⟩

/-- C8: a robot_config dispatch whose task has no robot_config_<task>
handler produces exactly one log entry and nothing else: no driver call and
no outcome call on the operation, and no error is reported to the caller. -/
theorem C8_unregistered_task (r : RobotState) (task : String)
    (args : List String) (h : task ∉ registered_tasks) :
    robot_config r task args =
      Except.ok [Event.log ("Operation robot_config " ++ task ++
        " is not handled")]
    ∧ ∀ events, robot_config r task args = Except.ok events →
        driverCalls events = [] ∧ outcomeCalls events = [] ∧
          (logMessages events).length = 1 := by
  simp only [registered_tasks, List.mem_cons, List.not_mem_nil, or_false,
    not_or] at h
  obtain ⟨h1, h2, h3, h4, h5, h6, h7, h8, h9, h10⟩ := h
  have hmain : robot_config r task args =
      Except.ok [Event.log ("Operation robot_config " ++ task ++
        " is not handled")] := by
    simp [robot_config, h1, h2, h3, h4, h5, h6, h7, h8, h9, h10]
  refine ⟨hmain, ?_⟩
  intro events heq
  rw [hmain] at heq
  cases heq
  simp [driverCalls, outcomeCalls, logMessages]

/-- Witness for C8 at the unregistered task name 'frobnicate'. -/
theorem C8_unregistered_task_witness :
    "frobnicate" ∉ registered_tasks
    ∧ robot_config baseRobot "frobnicate" ["1"] =
      Except.ok [Event.log
        "Operation robot_config frobnicate is not handled"] :=
  ⟨by decide,
   ((C8_unregistered_task baseRobot "frobnicate" ["1"] (by decide)).1).trans
     (by decide)⟩

/-- C9: each of prepare_mount_crystal, prepare_dismount_crystal and
prepare_mount_next_crystal first synchronously sends the non-terminal
'OK to prepare' update and only afterwards issues exactly one asynchronous
prepare-for-mount driver call; all three delegate to that single prepare
action, with no second driver call. -/
theorem C9_prepare_commands (args : List String) :
    prepare_mount_crystal args =
      [Event.log "prepare_mount_crystal",
       Event.outcome (OutcomeCall.opUpdate "OK to prepare"),
       Event.driver DriverCall.prepareForMount]
    ∧ prepare_dismount_crystal args =
      [Event.log "prepare_dismount_crystal",
       Event.log "prepare_mount_crystal",
       Event.outcome (OutcomeCall.opUpdate "OK to prepare"),
       Event.driver DriverCall.prepareForMount]
    ∧ prepare_mount_next_crystal args =
      [Event.log "prepare_mount_next_crystal",
       Event.log "prepare_mount_crystal",
       Event.outcome (OutcomeCall.opUpdate "OK to prepare"),
       Event.driver DriverCall.prepareForMount]
    ∧ driverCalls (prepare_mount_crystal args) = [DriverCall.prepareForMount]
    ∧ driverCalls (prepare_dismount_crystal args) =
      [DriverCall.prepareForMount]
    ∧ driverCalls (prepare_mount_next_crystal args) =
      [DriverCall.prepareForMount]
    ∧ outcomeCalls (prepare_mount_crystal args) =
      [OutcomeCall.opUpdate "OK to prepare"]
    ∧ outcomeCalls (prepare_dismount_crystal args) =
      [OutcomeCall.opUpdate "OK to prepare"]
    ∧ outcomeCalls (prepare_mount_next_crystal args) =
      [OutcomeCall.opUpdate "OK to prepare"] :=
  ⟨rfl, rfl, rfl, rfl, rfl, rfl, rfl, rfl, rfl⟩

/-- The position decoded from a flattened-index quotient. -/
def positionOfIdx : Nat → Position
| 0 => Position.left
| 1 => Position.middle
| _ => Position.right

/-- Reading ['left', 'middle', 'right'] at an in-range index. -/
theorem pyListGet_positions (q : Int) (h0 : 0 ≤ q) (h3 : q < 3) :
    pyListGet positionsList q = Except.ok (positionOfIdx q.toNat) := by
  interval_cases q <;> decide

/-- Every position of the zero patch is 96 zeros. -/
theorem zeroPatch_get (p : Position) :
    zeroPatch.get p = List.replicate 96 (0 : Int) := by
  cases p <;> rfl

/-- Replacing one position leaves the other positions of a patch unchanged. -/
theorem setPos_get_ne (patch : PortsPatch) (p q : Position) (l : List Int)
    (h : q ≠ p) : (patch.setPos p l).get q = patch.get q := by
  cases p <;> cases q <;> simp_all [PortsPatch.setPos, PortsPatch.get]

/-- Slice-assigning c ones over an in-range span [a, a + c) of 96 zeros. -/
theorem pySetSlice_replicate_int (a c : Int) (ha : 0 ≤ a) (hc : 0 ≤ c)
    (h : a + c ≤ 96) :
    pySetSlice (List.replicate 96 (0 : Int)) a (a + c)
      (List.replicate c.toNat (1 : Int)) =
    List.replicate a.toNat (0 : Int) ++ List.replicate c.toNat (1 : Int) ++
      List.replicate (96 - a.toNat - c.toNat) (0 : Int) := by
  have hna : ¬ (a < 0) := by omega
  have hnb : ¬ (a + c < 0) := by omega
  simp only [pySetSlice, pySliceNorm, List.length_replicate, Nat.cast_ofNat]
  rw [if_neg hna, if_neg hnb]
  rw [max_eq_left ha, min_eq_left (by omega : a ≤ (96 : Int))]
  rw [max_eq_left (by omega : (0 : Int) ≤ a + c),
    min_eq_left (by omega : a + c ≤ (96 : Int))]
  rw [max_eq_right (by omega : a ≤ a + c)]
  rw [List.take_replicate, List.drop_replicate]
  rw [min_eq_left (by omega : a.toNat ≤ 96)]
  have h1 : 96 - (a + c).toNat = 96 - a.toNat - c.toNat := by omega
  rw [h1]

/-- Slice-assigning c ones (1 ≤ c ≤ 96) at the Python range [-1, c - 1) of
96 zeros: the range is empty at index 95, so the ones are inserted before
the final zero. -/
theorem pySetSlice_neg_one (c : Int) (h1 : 1 ≤ c) (h2 : c ≤ 96) :
    pySetSlice (List.replicate 96 (0 : Int)) (-1) (-1 + c)
      (List.replicate c.toNat (1 : Int)) =
    List.replicate 95 (0 : Int) ++ List.replicate c.toNat (1 : Int) ++
      [(0 : Int)] := by
  have hna : (-1 : Int) < 0 := by omega
  have hnb : ¬ (-1 + c < 0) := by omega
  simp only [pySetSlice, pySliceNorm, List.length_replicate, Nat.cast_ofNat]
  rw [if_pos hna, if_neg hnb]
  rw [show (-1 : Int) + (96 : Int) = 95 from by omega]
  rw [max_eq_left (by omega : (0 : Int) ≤ 95),
    min_eq_left (by omega : (95 : Int) ≤ 96)]
  rw [max_eq_left (by omega : (0 : Int) ≤ -1 + c),
    min_eq_left (by omega : -1 + c ≤ (96 : Int))]
  rw [max_eq_left (by omega : -1 + c ≤ (95 : Int))]
  rw [List.take_replicate, List.drop_replicate]
  rw [show (95 : Int).toNat = 95 from rfl]
  rw [min_eq_left (by omega : 95 ≤ 96)]
  rfl

/-- C3: for every set_index_state call whose start is not a multiple of 97
(and decodes in range), the handler decodes position = [left, middle,
right][start / 97] and local start (start mod 97) - 1, builds a patch of
three 96-element zero arrays, sets exactly the addressed range of count
entries of the addressed position to 1 (for every state argument), and
issues the single bulk reset_ports driver call. -/
theorem C3_set_index_state (start count : Int) (state : String)
    (h0 : 0 ≤ start) (h1 : start < 291) (h2 : start.fmod 97 ≠ 0)
    (h3 : 0 ≤ count) (h4 : start.fmod 97 - 1 + count ≤ 96) :
    robot_config_set_index_state start count state =
      Except.ok [Event.driver (DriverCall.resetPorts
        (zeroPatch.setPos (positionOfIdx (start.fdiv 97).toNat)
          (List.replicate (start.fmod 97 - 1).toNat (0 : Int) ++
           List.replicate count.toNat (1 : Int) ++
           List.replicate (96 - (start.fmod 97 - 1).toNat - count.toNat)
             (0 : Int))))] := by
  have hid := Int.fmod_add_fdiv start 97
  have hr0 : 0 ≤ start.fmod 97 := Int.fmod_nonneg' start (by norm_num)
  have hr97 : start.fmod 97 < 97 := Int.fmod_lt_of_pos start (by norm_num)
  have hq0 : 0 ≤ start.fdiv 97 := Int.fdiv_nonneg h0 (by norm_num)
  have hq3 : start.fdiv 97 < 3 := by omega
  have hmain := pySetSlice_replicate_int (start.fmod 97 - 1) count
    (by omega) h3 (by omega)
  simp only [robot_config_set_index_state, SAMPLES_PER_POSITION,
    Nat.cast_ofNat]
  norm_num
  rw [pyListGet_positions _ hq0 hq3]
  simp only [zeroPatch_get]
  rw [hmain]
  have hcast : (start.fmod 97 - 1).toNat = (start.fmod 97).toNat - 1 := by
    omega
  simp [hcast, List.append_assoc]

/-- Witness for C3 at the documented instance: start 1, count 8, state 'b'
yields a left-position patch with indices 0 through 7 set and every other
entry of all three positions zero. -/
theorem C3_set_index_state_witness :
    (0 : Int) ≤ 1 ∧ (1 : Int) < 291 ∧ (1 : Int).fmod 97 ≠ 0 ∧
    (0 : Int) ≤ 8 ∧ (1 : Int).fmod 97 - 1 + 8 ≤ 96 ∧
    robot_config_set_index_state 1 8 "b" =
      Except.ok [Event.driver (DriverCall.resetPorts
        { left := List.replicate 8 1 ++ List.replicate 88 0,
          middle := List.replicate 96 0,
          right := List.replicate 96 0 })] :=
  ⟨by decide, by decide, by decide, by decide, by decide,
   (C3_set_index_state 1 8 "b" (by decide) (by decide) (by decide)
     (by decide) (by decide)).trans (by decide)⟩

/-- C10: for every set_index_state call whose start is a multiple of 97
(the reserved holder-type slot) with 1 ≤ count ≤ 96, the handler neither
no-ops nor errors: the local range start becomes -1, so the slice
assignment inserts the count ones before the last element of the addressed
position's array, giving that position a patch of length 96 + count while
the other two positions keep length 96. -/
theorem C10_set_index_state_holder_slot (start count : Int) (state : String)
    (h0 : 0 ≤ start) (h1 : start < 291) (h2 : start.fmod 97 = 0)
    (h3 : 1 ≤ count) (h4 : count ≤ 96) :
    robot_config_set_index_state start count state =
      Except.ok [Event.driver (DriverCall.resetPorts
        (zeroPatch.setPos (positionOfIdx (start.fdiv 97).toNat)
          (List.replicate 95 (0 : Int) ++
           List.replicate count.toNat (1 : Int) ++ [(0 : Int)])))]
    ∧ (List.replicate 95 (0 : Int) ++
        List.replicate count.toNat (1 : Int) ++ [(0 : Int)]).length =
      96 + count.toNat
    ∧ ∀ p, p ≠ positionOfIdx (start.fdiv 97).toNat →
        ((zeroPatch.setPos (positionOfIdx (start.fdiv 97).toNat)
          (List.replicate 95 (0 : Int) ++
           List.replicate count.toNat (1 : Int) ++ [(0 : Int)])).get p).length
          = 96 := by
  have hid := Int.fmod_add_fdiv start 97
  have hq0 : 0 ≤ start.fdiv 97 := Int.fdiv_nonneg h0 (by norm_num)
  have hq3 : start.fdiv 97 < 3 := by omega
  refine ⟨?_, ?_, ?_⟩
  · have hslice := pySetSlice_neg_one count h3 h4
    simp only [robot_config_set_index_state, SAMPLES_PER_POSITION,
      Nat.cast_ofNat]
    norm_num [h2]
    rw [pyListGet_positions _ hq0 hq3]
    simp only [zeroPatch_get]
    rw [hslice]
    simp [List.append_assoc]
  · simp only [List.length_append, List.length_replicate,
      List.length_singleton]
    omega
  · intro p hp
    rw [setPos_get_ne _ _ _ _ hp, zeroPatch_get]
    simp

/-- Witness for C10 at start 97 (the middle position's holder-type slot),
count 2: the middle patch becomes 95 zeros, two ones inserted, then the
final zero — 98 entries — while left and right stay 96 zeros. -/
theorem C10_set_index_state_holder_slot_witness :
    (0 : Int) ≤ 97 ∧ (97 : Int) < 291 ∧ (97 : Int).fmod 97 = 0 ∧
    (1 : Int) ≤ 2 ∧ (2 : Int) ≤ 96 ∧
    robot_config_set_index_state 97 2 "b" =
      Except.ok [Event.driver (DriverCall.resetPorts
        { left := List.replicate 96 0,
          middle := List.replicate 95 0 ++ [1, 1, 0],
          right := List.replicate 96 0 })] ∧
    (List.replicate 95 (0 : Int) ++
      List.replicate (2 : Int).toNat (1 : Int) ++ [(0 : Int)]).length =
      96 + (2 : Int).toNat := by
  have h := C10_set_index_state_holder_slot 97 2 "b" (by decide) (by decide)
    (by decide) (by decide) (by decide)
  exact ⟨by decide, by decide, by decide, by decide, by decide,
    h.1.trans (by decide), h.2.1⟩

/-- Counterexample to C2: an invalid position-letter token in mount_crystal
or dismount_crystal is not reported as an operation error — the dict lookup
raises a KeyError out of the dispatch call (no outcome call is made). -/
theorem C2_counterexample :
    mount_crystal "x" "1" "A" [] = Except.error "KeyError"
    ∧ dismount_crystal "x" "1" "A" [] = Except.error "KeyError"
    ∧ robot_config baseRobot "set_mounted" ["zzzz"] =
      Except.ok [Event.outcome (OutcomeCall.opError "Invalid argument")] := by
  refine ⟨by decide, by decide, by decide⟩

/-- C2 as amended: a non-implemented output id in hw_output_switch, a
malformed set_mounted token and a non-implemented set_port_state
combination each produce exactly one operation_error outcome call, no
driver call, and no exception; but an invalid position-letter token in
mount_crystal or dismount_crystal raises a KeyError out of the dispatch
call instead of reporting an operation error. -/
theorem C2_amended (r : RobotState) (output : Int) (arg : String)
    (port st : String) (cassette row column : String) (args : List String) :
    (output ≠ 1 → output ≠ 3 → output ≠ 14 → output ≠ 13 →
      hw_output_switch r output =
        Except.ok [Event.outcome (OutcomeCall.opError "Not implemented")])
    ∧ (set_mounted_parse arg = none →
      robot_config_set_mounted arg =
        Except.ok [Event.outcome (OutcomeCall.opError "Invalid argument")])
    ∧ ((pyEndsWith port "X0" && (st == "u")) = false →
      robot_config_set_port_state port st =
        Except.ok [Event.outcome (OutcomeCall.opError "Not implemented")])
    ∧ (cassetteLookup cassette = none →
      mount_crystal cassette row column args = Except.error "KeyError")
    ∧ (cassetteLookup cassette = none →
      dismount_crystal cassette row column args = Except.error "KeyError") := by
  refine ⟨?_, ?_, ?_, ?_, ?_⟩
  · intro h1 h3 h14 h13
    simp [hw_output_switch, Output_gripper, Output_lid, Output_heater,
      Output_heater_air, h1, h3, h14, h13]
  · intro h
    simp [robot_config_set_mounted, h]
  · intro h
    simp [robot_config_set_port_state, h]
  · intro h
    simp [mount_crystal, h]
  · intro h
    simp [dismount_crystal, h]

/-- Witness for the amended C2 at concrete protocol-invalid arguments:
output id 99, set_mounted token 'zzzz', set_port_state ('lA5', 'b'), and
mount/dismount position letter 'x'. -/
theorem C2_amended_witness :
    hw_output_switch baseRobot 99 =
      Except.ok [Event.outcome (OutcomeCall.opError "Not implemented")]
    ∧ robot_config_set_mounted "zzzz" =
      Except.ok [Event.outcome (OutcomeCall.opError "Invalid argument")]
    ∧ robot_config_set_port_state "lA5" "b" =
      Except.ok [Event.outcome (OutcomeCall.opError "Not implemented")]
    ∧ mount_crystal "x" "2" "B" [] = Except.error "KeyError"
    ∧ dismount_crystal "x" "2" "B" [] = Except.error "KeyError" :=
  have h := C2_amended baseRobot 99 "zzzz" "lA5" "b" "x" "2" "B" []
  ⟨h.1 (by decide) (by decide) (by decide) (by decide),
   h.2.1 (by decide),
   h.2.2.1 (by decide),
   h.2.2.2.1 (by decide),
   h.2.2.2.2 (by decide)⟩

/-- Whether a publish completed without an exception escaping. -/
def isOkE (e : Except String String) : Bool :=
  match e with
  | Except.ok _ => true
  | Except.error _ => false

/-- The mounted property succeeds whenever the goniometer key is present. -/
theorem mounted_isOk (r : RobotState) (g : Option (Position × Nat))
    (hg : pyDictGet r.sample_locations "goniometer" = Except.ok g) :
    ∃ s, mounted r = Except.ok s := by
  unfold mounted
  rw [hg]
  cases g <;> exact ⟨_, rfl⟩

/-- The sample_state property succeeds whenever every occupied location key
is one of the four known names. -/
theorem sample_state_isOk (r : RobotState)
    (hloc : ∀ kv ∈ r.sample_locations, kv.2.isSome = true →
      (locationToState kv.1).isSome = true) :
    ∃ s, sample_state r = Except.ok s := by
  unfold sample_state
  cases hfind : r.sample_locations.find? (fun kv => kv.2.isSome) with
  | none => exact ⟨_, rfl⟩
  | some kv =>
    have hmem := List.mem_of_find?_eq_some hfind
    have hp := List.find?_some hfind
    have hsome := hloc kv hmem hp
    cases hls : locationToState kv.1 with
    | none => rw [hls] at hsome; simp at hsome
    | some str =>
      exact ⟨str, by simp [hls]⟩

/-- One cassette segment succeeds whenever the position's holder type is in
the code table and any mounted port index is in range. -/
theorem cassette_segment_isOk (r : RobotState) (mountedPos : Option Position)
    (mountedPort : Nat) (position : Position)
    (hht : r.holder_types position ≠ HolderType.error)
    (hidx : mountedPos = some position →
      mountedPort < (r.port_states position).length) :
    ∃ s, cassette_segment r mountedPos mountedPort position = Except.ok s := by
  obtain ⟨code, hcode⟩ :
      ∃ c, holderTypeMap (r.holder_types position) = Except.ok c := by
    cases hh : r.holder_types position
    case error => exact absurd hh hht
    all_goals exact ⟨_, rfl⟩
  by_cases hmp : mountedPos = some position
  · have hlen := hidx hmp
    simp [cassette_segment, hmp, pyListSet, hlen, hcode]
  · simp [cassette_segment, hmp, hcode]

/-- The status publisher succeeds whenever the goniometer key is present. -/
theorem send_set_status_string_isOk (r : RobotState)
    (g : Option (Position × Nat))
    (hg : pyDictGet r.sample_locations "goniometer" = Except.ok g) :
    ∃ s, send_set_status_string r = Except.ok s := by
  obtain ⟨m, hm⟩ := mounted_isOk r g hg
  unfold send_set_status_string
  rw [hm]
  exact ⟨_, rfl⟩

/-- The state publisher succeeds whenever the four sample-location keys are
present and every occupied location key is known. -/
theorem send_set_state_string_isOk (r : RobotState)
    (g c p q : Option (Position × Nat))
    (hg : pyDictGet r.sample_locations "goniometer" = Except.ok g)
    (hc : pyDictGet r.sample_locations "cavity" = Except.ok c)
    (hp : pyDictGet r.sample_locations "picker" = Except.ok p)
    (hq : pyDictGet r.sample_locations "placer" = Except.ok q)
    (hloc : ∀ kv ∈ r.sample_locations, kv.2.isSome = true →
      (locationToState kv.1).isSome = true) :
    ∃ s, send_set_state_string r = Except.ok s := by
  obtain ⟨ss, hss⟩ := sample_state_isOk r hloc
  obtain ⟨m, hm⟩ := mounted_isOk r g hg
  unfold send_set_state_string
  rw [hg, hc, hp, hq, hss, hm]
  exact ⟨_, rfl⟩

/-- The cassette publisher succeeds whenever the goniometer key is present,
no holder type is the error value and any mounted index is in range. -/
theorem send_set_robot_cassette_string_isOk (r : RobotState)
    (g : Option (Position × Nat))
    (hg : pyDictGet r.sample_locations "goniometer" = Except.ok g)
    (hht : ∀ p, r.holder_types p ≠ HolderType.error)
    (hidx : ∀ pos idx, g = some (pos, idx) →
      idx < (r.port_states pos).length) :
    ∃ s, send_set_robot_cassette_string r = Except.ok s := by
  have hseg : ∀ position : Position, ∃ s,
      cassette_segment r (g.map Prod.fst) ((g.map Prod.snd).getD 0)
        position = Except.ok s := by
    intro position
    apply cassette_segment_isOk
    · exact hht position
    · intro hmp
      cases g with
      | none => simp at hmp
      | some pr =>
        obtain ⟨pos, idx⟩ := pr
        simp at hmp
        subst hmp
        simpa using hidx _ idx rfl
  obtain ⟨s1, h1⟩ := hseg Position.left
  obtain ⟨s2, h2⟩ := hseg Position.middle
  obtain ⟨s3, h3⟩ := hseg Position.right
  unfold send_set_robot_cassette_string
  rw [hg]
  simp only [h1, h2, h3]
  exact ⟨_, rfl⟩

/-- Counterexample to C1: exceptions do escape the publish boundary for
malformed robot attributes.  A holder-type value outside the documented
code table (HolderType.error, absent from HOLDER_TYPE_MAP) raises KeyError
out of the cassette publish, and a missing sample-locations key raises
KeyError out of the state and status publishes, instead of rendering a
fallback token. -/
theorem C1_counterexample :
    send_set_robot_cassette_string
      { baseRobot with holder_types := fun _ => HolderType.error } =
      Except.error "KeyError"
    ∧ send_set_state_string
      { baseRobot with
          sample_locations := [("cavity", some (Position.left, 0))] } =
      Except.error "KeyError"
    ∧ send_set_status_string
      { baseRobot with sample_locations := [] } =
      Except.error "KeyError" := by
  refine ⟨by decide, by decide, by decide⟩

/-- C1 as amended: the fallback renderings do hold where the source handles
them (an empty or absent port tuple renders "invalid", an absent timestamp
renders an empty brace pair, an unknown distance renders 'uuuu'), and no
exception escapes any of the seven publishes provided the sample-locations
dict contains the goniometer, cavity, picker and placer keys, every occupied
location key is one of those four names, no position's holder type is the
error value (which is missing from the code table), and any mounted port
index is within the position's port-state array; a missing sample-locations
key or an error holder type raises KeyError past the publish boundary. -/
theorem C1_amended (r : RobotState) (g c p q : Option (Position × Nat))
    (hg : pyDictGet r.sample_locations "goniometer" = Except.ok g)
    (hc : pyDictGet r.sample_locations "cavity" = Except.ok c)
    (hp : pyDictGet r.sample_locations "picker" = Except.ok p)
    (hq : pyDictGet r.sample_locations "placer" = Except.ok q)
    (hloc : ∀ kv ∈ r.sample_locations, kv.2.isSome = true →
      (locationToState kv.1).isSome = true)
    (hht : ∀ pos, r.holder_types pos ≠ HolderType.error)
    (hidx : ∀ pos idx, g = some (pos, idx) →
      idx < (r.port_states pos).length) :
    isOkE (send_set_output_string r) = true
    ∧ isOkE (send_set_input_string r) = true
    ∧ isOkE (send_set_status_string r) = true
    ∧ isOkE (send_set_state_string r) = true
    ∧ isOkE (send_set_robot_cassette_string r) = true
    ∧ (∀ position, isOkE (send_set_robot_force_string r position) = true)
    ∧ isOkE (send_calibration_timestamps r) = true
    ∧ port_tuple_to_str r.holder_types none = "invalid"
    ∧ tsBrace none = braced ""
    ∧ fmtDistance none = "uuuu" := by
  obtain ⟨s1, h1⟩ := send_set_status_string_isOk r g hg
  obtain ⟨s2, h2⟩ := send_set_state_string_isOk r g c p q hg hc hp hq hloc
  obtain ⟨s3, h3⟩ := send_set_robot_cassette_string_isOk r g hg hht hidx
  exact ⟨rfl, rfl, by rw [h1]; rfl, by rw [h2]; rfl, by rw [h3]; rfl,
    fun _ => rfl, rfl, rfl, rfl, rfl⟩

/-- Witness for the amended C1 at a concrete well-formed robot snapshot:
all four location keys present, a sample in the cavity, normal holders
everywhere. -/
theorem C1_amended_witness :
    isOkE (send_set_output_string baseRobot) = true
    ∧ isOkE (send_set_input_string baseRobot) = true
    ∧ isOkE (send_set_status_string baseRobot) = true
    ∧ isOkE (send_set_state_string baseRobot) = true
    ∧ isOkE (send_set_robot_cassette_string baseRobot) = true
    ∧ (∀ position, isOkE (send_set_robot_force_string baseRobot position) = true)
    ∧ isOkE (send_calibration_timestamps baseRobot) = true
    ∧ port_tuple_to_str baseRobot.holder_types none = "invalid"
    ∧ tsBrace none = braced ""
    ∧ fmtDistance none = "uuuu" :=
  C1_amended baseRobot none (some (Position.left, 0)) none none
    (by decide) (by decide) (by decide) (by decide)
    (by decide)
    (by intro pos; cases pos <;> decide)
    (by intro pos idx h; exact Option.noConfusion h)
